import Mathlib

/-!
Verification of the RAG question-answering service: a shallow embedding of
the FastAPI query service (`app.py`) and the standalone ingestion script
(`ingest.py`), with the external components (embedding API, vector-store
similarity search, chat-completion API) supplied as deterministic stub
functions, and theorems about the embedded operations.
-/

namespace RagApp

/-- A chunk of corpus text; the corpus itself is modelled as a list of
characters, so that substring structure is explicit. -/
abbrev Chunk := List Char

/-- Modelled from the spec: the text-splitting policy lives in the external
`langchain_text_splitters.CharacterTextSplitter` library, not in this
repository.  The spec describes the policy as cutting the document into
fixed-size chunks bounded by the configured maximum character length, each
chunk starting `chunk_size - chunk_overlap` characters after the previous
one.  `fuel` bounds the recursion; the wrapper passes `text.length`, which
always suffices because every step consumes at least one character. -/
def splitTextGo (chunkSize step : Nat) : Nat → List Char → List (List Char)
  | _, [] => []
  | 0, _ :: _ => []
  | fuel + 1, c :: cs =>
    ((c :: cs).take chunkSize) :: splitTextGo chunkSize step fuel ((c :: cs).drop step)

/-- Modelled from the spec: `CharacterTextSplitter(chunk_size, chunk_overlap)`
as used at `ingest.py` line 19 and `app.py` line 33, following the spec's
splitting policy (fixed-size chunks whose start positions are
`chunk_size - chunk_overlap` apart). -/
def splitText (chunk_size chunk_overlap : Nat) (text : List Char) : List (List Char) :=
  splitTextGo chunk_size (chunk_size - chunk_overlap) text.length text

theorem splitTextGo_length (chunkSize step : Nat) (hstep : 0 < step) :
    ∀ (fuel : Nat) (text : List Char), text.length ≤ fuel →
      (splitTextGo chunkSize step fuel text).length = (text.length + step - 1) / step := by
  intro fuel
  induction fuel with
  | zero =>
    intro text h
    have : text = [] := List.length_eq_zero.mp (Nat.le_zero.mp h)
    subst this
    simp [splitTextGo, Nat.div_eq_of_lt (by omega : step - 1 < step)]
  | succ n ih =>
    intro text h
    cases text with
    | nil => simp [splitTextGo, Nat.div_eq_of_lt (by omega : step - 1 < step)]
    | cons c cs =>
      have hdrop : ((c :: cs).drop step).length ≤ n := by
        simp only [List.length_drop, List.length_cons] at *
        omega
      rw [splitTextGo, List.length_cons, ih _ hdrop]
      simp only [List.length_drop, List.length_cons]
      rcases le_or_lt step (cs.length + 1) with hle | hlt
      · have h1 : cs.length + 1 - step + step - 1 = cs.length := by omega
        have h2 : cs.length + 1 + step - 1 = cs.length + step := by omega
        rw [h1, h2, Nat.add_div_right _ hstep]
      · have h1 : cs.length + 1 - step + step - 1 = step - 1 := by omega
        have h2 : cs.length + 1 + step - 1 = cs.length + step := by omega
        rw [h1, h2, Nat.add_div_right _ hstep,
          Nat.div_eq_of_lt (by omega : step - 1 < step),
          Nat.div_eq_of_lt (by omega : cs.length < step)]

theorem splitTextGo_mem (chunkSize step : Nat) :
    ∀ (fuel : Nat) (text chunk : List Char),
      chunk ∈ splitTextGo chunkSize step fuel text →
      ∃ pre post, text = pre ++ chunk ++ post := by
  intro fuel
  induction fuel with
  | zero =>
    intro text chunk h
    cases text <;> simp [splitTextGo] at h
  | succ n ih =>
    intro text chunk h
    cases text with
    | nil => simp [splitTextGo] at h
    | cons c cs =>
      rw [splitTextGo] at h
      rcases List.mem_cons.mp h with h1 | h2
      · refine ⟨[], (c :: cs).drop chunkSize, ?_⟩
        rw [h1]
        simp [List.take_append_drop]
      · rcases ih _ _ h2 with ⟨pre, post, hp⟩
        refine ⟨(c :: cs).take step ++ pre, post, ?_⟩
        conv_lhs => rw [← List.take_append_drop step (c :: cs)]
        rw [hp]
        simp [List.append_assoc]

theorem splitText_length (chunk_size chunk_overlap : Nat) (text : List Char)
    (h : chunk_overlap < chunk_size) :
    (splitText chunk_size chunk_overlap text).length
      = (text.length + (chunk_size - chunk_overlap) - 1) / (chunk_size - chunk_overlap) :=
  splitTextGo_length chunk_size (chunk_size - chunk_overlap) (by omega) text.length text le_rfl

/-- A persisted FAISS index: the collection of (embedding vector, chunk text)
pairs assembled by `FAISS.from_documents`.  Vectors are opaque integer lists,
their semantics belonging to the external embedding service. -/
structure FaissIndex where
  entries : List (List Int × Chunk)
deriving DecidableEq

/-- A retrieved document, as the vector store's retriever returns it. -/
structure Document where
  page_content : String
deriving DecidableEq

/-- Deterministic stubs for the three external components the code delegates
to: the embedding API (`OpenAIEmbeddings`), the similarity search of the
FAISS retriever, and the chat-completion API (`ChatOpenAI` followed by
`StrOutputParser`, which extracts the plain text).  Fallible calls return
`Except`, the error carrying the exception message. -/
structure Services where
  embed : Chunk → Except String (List Int)
  search : FaissIndex → String → List Document
  llmComplete : String → Except String String

/-- The two files the code touches: `./data.txt` (the corpus, `none` when the
file is missing) and the `faiss_index` directory (`none` when absent). -/
structure FileSystem where
  dataTxt : Option (List Char)
  faissIndexDir : Option FaissIndex
deriving DecidableEq

/-- The assembled LCEL pipeline bound to the global `rag_chain` at
`app.py` line 78.  Its identity is fixed by the vector store it retrieves
from; retriever, prompt template, chat model and output parsing are all
determined by the fixed template and the external service stubs. -/
structure RagChain where
  vectorstore : FaissIndex
deriving DecidableEq

/-- Mutable state of the query-service process: the module-level `rag_chain`
global (`app.py` line 21, `None` for Unloaded, a chain for Loaded), the
filesystem, and a ghost counter recording how many times the
chunk-embed-persist branch of `ensure_faiss_index` has run. -/
structure ServiceState where
  rag_chain : Option RagChain
  fs : FileSystem
  embedRuns : Nat
deriving DecidableEq

/-- Chunking parameter `chunk_size=1000` at `app.py` line 33. -/
def app_chunk_size : Nat := 1000

/-- Chunking parameter `chunk_overlap=0` at `app.py` line 33. -/
def app_chunk_overlap : Nat := 0

/-- Chunking parameter `chunk_size=1000` at `ingest.py` line 19. -/
def ingest_chunk_size : Nat := 1000

/-- Chunking parameter `chunk_overlap=0` at `ingest.py` line 19. -/
def ingest_chunk_overlap : Nat := 0

/-- Corpus path passed to `TextLoader` at `app.py` line 31. -/
def app_corpus_path : String := "./data.txt"

/-- Corpus path passed to `TextLoader` at `ingest.py` line 15. -/
def ingest_corpus_path : String := "./data.txt"

/-- Index directory passed to `save_local` at `app.py` line 39. -/
def app_index_path : String := "faiss_index"

/-- Index directory passed to `save_local` at `ingest.py` line 27. -/
def ingest_index_path : String := "faiss_index"

/-- Module-level credential check of `app.py` (lines 15-18): prints a warning
or a confirmation line and always proceeds; the `Except.ok` value carries the
printed line, and no input makes it `Except.error`. -/
def app_key_check (keySet : Bool) : Except String String :=
  if keySet then Except.ok "✅ OPENAI_API_KEY is set"
  else Except.ok "⚠️  WARNING: OPENAI_API_KEY environment variable not set. Chat functionality will fail."

/-- Module-level credential check of `ingest.py` (lines 11-12): raises
`EnvironmentError` when the key is absent, aborting the script. -/
def ingest_key_check (keySet : Bool) : Except String Unit :=
  if keySet then Except.ok () else Except.error "请先设置 OPENAI_API_KEY 环境变量"

/-- Embedding of a list of chunks, one external API call per chunk, pairing
each resulting vector with the chunk's text.  The first failing call aborts
the whole batch, as an exception inside `FAISS.from_documents` would. -/
def embedDocs (svc : Services) : List Chunk → Except String (List (List Int × Chunk))
  | [] => Except.ok []
  | d :: ds =>
    match svc.embed d with
    | Except.error e => Except.error e
    | Except.ok v =>
      match embedDocs svc ds with
      | Except.error e => Except.error e
      | Except.ok rest => Except.ok ((v, d) :: rest)

/-- `FAISS.from_documents(docs, embeddings)`: embed every chunk and assemble
the (vector, text) pairs into an index. -/
def faiss_from_documents (svc : Services) (docs : List Chunk) : Except String FaissIndex :=
  match embedDocs svc docs with
  | Except.error e => Except.error e
  | Except.ok entries => Except.ok ⟨entries⟩

/-- Index-building branch of `ensure_faiss_index` (`app.py` lines 30-38) after
the corpus has been loaded: split with
`CharacterTextSplitter(chunk_size=1000, chunk_overlap=0)` and build the
FAISS index from the chunks. -/
def appBuildIndex (svc : Services) (corpus : List Char) : Except String FaissIndex :=
  faiss_from_documents svc (splitText app_chunk_size app_chunk_overlap corpus)

/-- Chunk-embed-index pipeline of `ingest.py` (lines 19-24) after the corpus
has been loaded. -/
def ingestBuildIndex (svc : Services) (corpus : List Char) : Except String FaissIndex :=
  faiss_from_documents svc (splitText ingest_chunk_size ingest_chunk_overlap corpus)

/-- `ensure_faiss_index` (`app.py` lines 23-40): if the `faiss_index`
directory is absent, regenerate it from `data.txt`, raising
`FileNotFoundError` when the corpus is also absent.  The persisted index is
written only after every embedding call has succeeded (`save_local` runs
after `FAISS.from_documents`); the ghost counter `embedRuns` records each run
of this regeneration branch. -/
def ensure_faiss_index (svc : Services) (s : ServiceState) : Except String ServiceState :=
  match s.fs.faissIndexDir with
  | some _ => Except.ok s
  | none =>
    match s.fs.dataTxt with
    | none => Except.error "data.txt not found. Cannot generate index."
    | some corpus =>
      match appBuildIndex svc corpus with
      | Except.error e => Except.error e
      | Except.ok db =>
        Except.ok { s with fs := { s.fs with faissIndexDir := some db }, embedRuns := s.embedRuns + 1 }

/-- `get_rag_chain` (`app.py` lines 42-85): lazy, first-call-wins
construction of the pipeline.  When `rag_chain` is already set it is returned
unchanged; otherwise the function ensures the index exists, loads it
(`FAISS.load_local` raises when the directory is missing), assembles the
chain, and only then — as the final step — assigns the global. -/
def get_rag_chain (svc : Services) (s : ServiceState) : Except String (RagChain × ServiceState) :=
  match s.rag_chain with
  | some c => Except.ok (c, s)
  | none =>
    match ensure_faiss_index svc s with
    | Except.error e => Except.error e
    | Except.ok s1 =>
      match s1.fs.faissIndexDir with
      | none => Except.error "faiss_index directory not found"
      | some vs => Except.ok (⟨vs⟩, { s1 with rag_chain := some ⟨vs⟩ })

/-- `format_docs` (`app.py` lines 75-76): join the retrieved chunk texts with
a blank-line separator into one context string. -/
def format_docs (docs : List Document) : String :=
  String.intercalate "\n\n" (docs.map Document.page_content)

/-- Prompt template of `app.py` lines 60-67 with the `context` and `question`
placeholders substituted, as `ChatPromptTemplate.from_template` does at
invocation time. -/
def promptTemplate (context question : String) : String :=
  "Use the following pieces of context to answer the question.\nIf you don't know the answer, just say that you don't know, don't try to make up an answer.\n\nContext: " ++ context ++ "\n\nQuestion: " ++ question ++ "\n\nHelpful Answer: "

/-- Configuration of the chat model at `app.py` line 72:
`ChatOpenAI(model_name="gpt-3.5-turbo", temperature=0)`. -/
structure LLMConfig where
  model_name : String
  temperature : Nat
deriving DecidableEq

/-- The `llm` object built by `get_rag_chain` (`app.py` line 72). -/
def llm : LLMConfig := ⟨"gpt-3.5-turbo", 0⟩

/-- Invocation of the LCEL pipeline (`app.py` lines 78-83): run the retriever
on the question, format the documents into the context string, fill the
prompt template, and send the prompt to the chat-completion API (whose text
the output parsing stage passes through unchanged). -/
def chainInvoke (svc : Services) (chain : RagChain) (question : String) : Except String String :=
  svc.llmComplete (promptTemplate (format_docs (svc.search chain.vectorstore question)) question)

/-- JSON object bodies the `/chat` handler builds: either the single object
with an `answer` field or the single object with an `error` field. -/
inductive JsonBody where
  | answerObj (answer : String)
  | errorObj (error : String)
deriving DecidableEq

/-- Raw return value of the handler: the success branch returns a bare body,
the error branch returns the `body, status` tuple whose second component is
the intended HTTP status. -/
inductive HandlerReturn where
  | body (b : JsonBody)
  | bodyWithStatus (b : JsonBody) (intendedStatus : Nat)
deriving DecidableEq

/-- `chat` (`app.py` lines 229-238): the POST /chat handler.  Lazy
initialization and pipeline invocation run inside `try`; on success the
handler returns the answer wrapped in the fixed `"Helpful Answer: V2 "`
literal, and any exception is caught at this boundary and converted to the
`{"error": str(e)}, 500` tuple.  State mutations performed before an
exception (none are possible before one in this code) stay in place. -/
def chat (svc : Services) (question : String) (s : ServiceState) : HandlerReturn × ServiceState :=
  match get_rag_chain svc s with
  | Except.error e => (HandlerReturn.bodyWithStatus (JsonBody.errorObj e) 500, s)
  | Except.ok (chain, s1) =>
    match chainInvoke svc chain question with
    | Except.error e => (HandlerReturn.bodyWithStatus (JsonBody.errorObj e) 500, s1)
    | Except.ok answer =>
      (HandlerReturn.body (JsonBody.answerObj ("Helpful Answer: V2 " ++ answer)), s1)

/-- Requests the service accepts: `GET /` and `POST /chat`. -/
inductive Request where
  | root
  | chatReq (question : String)

/-- State effect of handling one request: `read_root` (`app.py` lines 92-227)
returns a constant HTML page and never touches `rag_chain` or the
filesystem; `chat` may lazily initialize the pipeline. -/
def handleRequest (svc : Services) (r : Request) (s : ServiceState) : ServiceState :=
  match r with
  | Request.root => s
  | Request.chatReq q => (chat svc q s).2

/-- Running a sequence of requests against the service, front to back. -/
def runRequests (svc : Services) (rs : List Request) (s : ServiceState) : ServiceState :=
  rs.foldl (fun st r => handleRequest svc r st) s

/-- Module-level pipeline of `ingest.py` (lines 11-27): credential check
(raising when the key is absent), corpus load, chunk, embed, and save of the
index to the `faiss_index` directory. -/
def ingestMain (svc : Services) (keySet : Bool) (fs : FileSystem) : Except String FileSystem :=
  match ingest_key_check keySet with
  | Except.error e => Except.error e
  | Except.ok _ =>
    match fs.dataTxt with
    | none => Except.error "data.txt not found"
    | some corpus =>
      match ingestBuildIndex svc corpus with
      | Except.error e => Except.error e
      | Except.ok db => Except.ok { fs with faissIndexDir := some db }

/-- Stub services used by the concrete witnesses: the embedding of a chunk is
the one-element vector of its length, retrieval returns every stored chunk,
and the chat model echoes the prompt. -/
def stubServices : Services where
  embed := fun d => Except.ok [(d.length : Int)]
  search := fun idx _ => idx.entries.map (fun ent => ⟨String.mk ent.2⟩)
  llmComplete := fun p => Except.ok p

/-- Service state with no corpus file and no index on disk. -/
def emptyState : ServiceState := ⟨none, ⟨none, none⟩, 0⟩

/-- A small pre-built index, as the ingestion step would leave on disk. -/
def diskIndex : FaissIndex := ⟨[([2], ['h', 'i'])]⟩

/-- Service state before the first request, with the index already on disk. -/
def loadedReadyState : ServiceState := ⟨none, ⟨some ['h', 'i'], some diskIndex⟩, 0⟩

/-- Service state after the pipeline has been loaded. -/
def loadedState : ServiceState := ⟨some ⟨diskIndex⟩, ⟨some ['h', 'i'], some diskIndex⟩, 0⟩

/-- Service state with a reachable corpus but no index yet. -/
def freshState : ServiceState := ⟨none, ⟨some ['h', 'i'], none⟩, 0⟩

theorem get_rag_chain_loaded (svc : Services) (s : ServiceState) (c : RagChain)
    (h : s.rag_chain = some c) : get_rag_chain svc s = Except.ok (c, s) := by
  unfold get_rag_chain
  rw [h]

theorem chat_loaded_state_fixed (svc : Services) (q : String) (s : ServiceState) (c : RagChain)
    (h : s.rag_chain = some c) : (chat svc q s).2 = s := by
  unfold chat
  rw [get_rag_chain_loaded svc s c h]
  cases hi : chainInvoke svc c q <;> simp [hi]

theorem runRequests_loaded_fixed (svc : Services) (rs : List Request) (s : ServiceState)
    (c : RagChain) (h : s.rag_chain = some c) : runRequests svc rs s = s := by
  induction rs with
  | nil => rfl
  | cons r rs ih =>
    have hstep : handleRequest svc r s = s := by
      cases r with
      | root => rfl
      | chatReq q => exact chat_loaded_state_fixed svc q s c h
    show runRequests svc rs (handleRequest svc r s) = s
    rw [hstep]
    exact ih

theorem get_rag_chain_first_with_index (svc : Services) (s : ServiceState) (idx : FaissIndex)
    (h1 : s.rag_chain = none) (h2 : s.fs.faissIndexDir = some idx) :
    get_rag_chain svc s = Except.ok (⟨idx⟩, { s with rag_chain := some ⟨idx⟩ }) := by
  unfold get_rag_chain ensure_faiss_index
  rw [h1, h2]
  simp [h2]

theorem get_rag_chain_assigns (svc : Services) (s : ServiceState) (c : RagChain)
    (s' : ServiceState) (h : get_rag_chain svc s = Except.ok (c, s')) :
    s'.rag_chain = some c := by
  unfold get_rag_chain at h
  split at h
  · rename_i c0 hc0
    simp only [Except.ok.injEq, Prod.mk.injEq] at h
    rw [← h.2, hc0, h.1]
  · split at h
    · exact absurd h (by simp)
    · split at h
      · exact absurd h (by simp)
      · rename_i vs hvs
        simp only [Except.ok.injEq, Prod.mk.injEq] at h
        rw [← h.2, ← h.1]

/-- Answer a successful witness request produces: the echoing stub model
returns the filled prompt, which the handler wraps in the fixed literal. -/
def chatWitnessAnswer : String :=
  "Helpful Answer: V2 " ++ promptTemplate (format_docs [⟨String.mk ['h', 'i']⟩]) "q"

theorem embedDocs_ok (svc : Services) (docs : List Chunk)
    (h : ∀ d ∈ docs, ∃ v, svc.embed d = Except.ok v) :
    ∃ entries, embedDocs svc docs = Except.ok entries := by
  induction docs with
  | nil => exact ⟨[], rfl⟩
  | cons d ds ih =>
    obtain ⟨v, hv⟩ := h d (List.mem_cons_self d ds)
    obtain ⟨rest, hrest⟩ := ih (fun x hx => h x (List.mem_cons_of_mem d hx))
    refine ⟨(v, d) :: rest, ?_⟩
    unfold embedDocs
    rw [hv, hrest]

/-- C1: every exception raised while handling POST /chat — during lazy
initialization (`get_rag_chain`, which covers a missing-index build failure)
or during pipeline invocation (an API or network failure surfaced by the
external stubs) — is caught at the request boundary, and the handler returns
the single JSON object whose one `error` field holds the exception's
message, together with the intended HTTP status 500. -/
theorem chat_catches_exceptions (svc : Services) (q : String) (s : ServiceState) (e : String)
    (h : get_rag_chain svc s = Except.error e ∨
      ∃ c s1, get_rag_chain svc s = Except.ok (c, s1) ∧ chainInvoke svc c q = Except.error e) :
    (chat svc q s).1 = HandlerReturn.bodyWithStatus (JsonBody.errorObj e) 500 := by
  rcases h with h | ⟨c, s1, h1, h2⟩
  · simp [chat, h]
  · simp [chat, h1, h2]

/-- Witness for C1: with no corpus and no index on disk, the first request
raises during the index build and the handler returns the error object. -/
theorem chat_catches_exceptions_witness :
    (get_rag_chain stubServices emptyState
        = Except.error "data.txt not found. Cannot generate index." ∨
      ∃ c s1, get_rag_chain stubServices emptyState = Except.ok (c, s1) ∧
        chainInvoke stubServices c "q" = Except.error "data.txt not found. Cannot generate index.") ∧
    (chat stubServices "q" emptyState).1
      = HandlerReturn.bodyWithStatus
          (JsonBody.errorObj "data.txt not found. Cannot generate index.") 500 :=
  ⟨Or.inl rfl,
    chat_catches_exceptions stubServices "q" emptyState
      "data.txt not found. Cannot generate index." (Or.inl rfl)⟩

/-- C2: for a corpus of `N` characters split with chunk size `C` and overlap
`O` (ingestion passes 1000 and 0), the splitter produces exactly
`⌈N / (C − O)⌉` chunks, and every chunk is an exact contiguous substring of
the corpus. -/
theorem chunk_count_and_substring (C O : Nat) (text : List Char) (hO : O < C) :
    (splitText C O text).length = (text.length + (C - O) - 1) / (C - O) ∧
    ∀ chunk ∈ splitText C O text, ∃ pre post, text = pre ++ chunk ++ post := by
  constructor
  · exact splitText_length C O text hO
  · intro chunk hc
    exact splitTextGo_mem C (C - O) text.length text chunk hc

/-- Witness for C2 at chunk size 3, overlap 1, on the corpus "abcde". -/
theorem chunk_count_and_substring_witness :
    1 < 3 ∧
    ((splitText 3 1 "abcde".toList).length = ("abcde".toList.length + (3 - 1) - 1) / (3 - 1) ∧
      ∀ chunk ∈ splitText 3 1 "abcde".toList,
        ∃ pre post, "abcde".toList = pre ++ chunk ++ post) :=
  ⟨by decide, chunk_count_and_substring 3 1 "abcde".toList (by decide)⟩

/-- C3 counterexample: the ingestion script does abort at startup when
`OPENAI_API_KEY` is absent — its module-level check raises `EnvironmentError`
instead of logging a warning and continuing, refuting the claim for the
ingestion process. -/
theorem ingest_aborts_without_key :
    ingest_key_check false = Except.error "请先设置 OPENAI_API_KEY 环境变量" := rfl

/-- C3 amended: when the credential environment variable is absent, the query
service logs a warning and does not abort (failure surfaces only when an
external API call is attempted, through the request handler), while the
ingestion script raises an `EnvironmentError` at startup and aborts. -/
theorem key_check_behaviour :
    app_key_check false
      = Except.ok
        "⚠️  WARNING: OPENAI_API_KEY environment variable not set. Chat functionality will fail." ∧
    app_key_check true = Except.ok "✅ OPENAI_API_KEY is set" ∧
    ingest_key_check false = Except.error "请先设置 OPENAI_API_KEY 环境变量" :=
  ⟨rfl, rfl, rfl⟩

/-- C6: the on-demand regeneration path of the query service and the
standalone ingestion script run the same chunk-embed-persist sequence:
identical chunking parameters (size 1000, overlap 0), identical corpus path,
identical index output location, and for every corpus and embedding stub the
two pipelines build equal indexes. -/
theorem regeneration_matches_ingestion :
    app_chunk_size = ingest_chunk_size ∧
    app_chunk_overlap = ingest_chunk_overlap ∧
    app_corpus_path = ingest_corpus_path ∧
    app_index_path = ingest_index_path ∧
    ∀ (svc : Services) (corpus : List Char),
      appBuildIndex svc corpus = ingestBuildIndex svc corpus :=
  ⟨rfl, rfl, rfl, rfl, fun _ _ => rfl⟩

/-- C4: with an index already on disk, the first /chat call builds and stores
the pipeline, and every subsequent call reuses the same loaded instance —
the state after the later calls is unchanged, so the chunk-embed-persist
path (counted by the ghost `embedRuns`) is never re-invoked. -/
theorem lazy_load_idempotent (svc : Services) (q : String) (qs : List String)
    (s : ServiceState) (idx : FaissIndex)
    (h1 : s.rag_chain = none) (h2 : s.fs.faissIndexDir = some idx) :
    (chat svc q s).2.rag_chain = some ⟨idx⟩ ∧
    (chat svc q s).2.embedRuns = s.embedRuns ∧
    runRequests svc (qs.map Request.chatReq) (chat svc q s).2 = (chat svc q s).2 := by
  have hg := get_rag_chain_first_with_index svc s idx h1 h2
  have hs1 : (chat svc q s).2 = { s with rag_chain := some ⟨idx⟩ } := by
    unfold chat
    rw [hg]
    cases hi : chainInvoke svc ⟨idx⟩ q <;> simp [hi]
  refine ⟨by rw [hs1], by rw [hs1], ?_⟩
  rw [hs1]
  exact runRequests_loaded_fixed svc _ _ ⟨idx⟩ rfl

/-- Witness for C4: one first call and two follow-up calls against a state
whose index is already on disk. -/
theorem lazy_load_idempotent_witness :
    loadedReadyState.rag_chain = none ∧
    loadedReadyState.fs.faissIndexDir = some diskIndex ∧
    ((chat stubServices "q" loadedReadyState).2.rag_chain = some ⟨diskIndex⟩ ∧
      (chat stubServices "q" loadedReadyState).2.embedRuns = loadedReadyState.embedRuns ∧
      runRequests stubServices (["a", "b"].map Request.chatReq)
          (chat stubServices "q" loadedReadyState).2
        = (chat stubServices "q" loadedReadyState).2) :=
  ⟨rfl, rfl, lazy_load_idempotent stubServices "q" ["a", "b"] loadedReadyState diskIndex rfl rfl⟩

/-- C5: every successful /chat response is produced by exactly the staged
pipeline, in order: retrieve the top-k documents from the vector store, join
their texts with the blank-line separator, substitute context and question
into the fixed prompt template, send the prompt to the chat-completion API,
and wrap its raw reply in the `"Helpful Answer: V2 "` literal inside the
`answer` field. -/
theorem chat_success_pipeline (svc : Services) (q : String) (s : ServiceState)
    (a : String) (s' : ServiceState)
    (h : chat svc q s = (HandlerReturn.body (JsonBody.answerObj a), s')) :
    ∃ chain ans,
      get_rag_chain svc s = Except.ok (chain, s') ∧
      svc.llmComplete (promptTemplate (format_docs (svc.search chain.vectorstore q)) q)
        = Except.ok ans ∧
      a = "Helpful Answer: V2 " ++ ans := by
  unfold chat at h
  split at h
  · exact absurd h (by simp)
  · rename_i chain s1 hg
    split at h
    · exact absurd h (by simp)
    · rename_i ans hi
      simp only [Prod.mk.injEq, HandlerReturn.body.injEq, JsonBody.answerObj.injEq] at h
      refine ⟨chain, ans, ?_, hi, h.1.symm⟩
      rw [← h.2]
      exact hg

/-- Witness for C5: a concrete successful request against the echoing stub
services, exhibiting the retrieved context, the filled template, and the
literal wrapping. -/
theorem chat_success_pipeline_witness :
    chat stubServices "q" loadedReadyState
      = (HandlerReturn.body (JsonBody.answerObj chatWitnessAnswer), loadedState) ∧
    ∃ chain ans,
      get_rag_chain stubServices loadedReadyState = Except.ok (chain, loadedState) ∧
      stubServices.llmComplete
          (promptTemplate (format_docs (stubServices.search chain.vectorstore "q")) "q")
        = Except.ok ans ∧
      chatWitnessAnswer = "Helpful Answer: V2 " ++ ans :=
  ⟨rfl,
    chat_success_pipeline stubServices "q" loadedReadyState chatWitnessAnswer loadedState rfl⟩

/-- C7: a query submitted before any index exists, with the corpus file
reachable and the external embedding and chat calls succeeding, answers the
request and leaves a newly created index directory on disk as a side
effect. -/
theorem first_query_builds_index (svc : Services) (q : String) (s : ServiceState)
    (corpus : List Char)
    (hchain : s.rag_chain = none)
    (hidx : s.fs.faissIndexDir = none)
    (hdata : s.fs.dataTxt = some corpus)
    (hembed : ∀ d ∈ splitText app_chunk_size app_chunk_overlap corpus,
      ∃ v, svc.embed d = Except.ok v)
    (hllm : ∀ p, ∃ ans, svc.llmComplete p = Except.ok ans) :
    (∃ a, (chat svc q s).1 = HandlerReturn.body (JsonBody.answerObj a)) ∧
    ∃ idx, (chat svc q s).2.fs.faissIndexDir = some idx := by
  obtain ⟨entries, hent⟩ := embedDocs_ok svc _ hembed
  have hens : ensure_faiss_index svc s
      = Except.ok { s with fs := { s.fs with faissIndexDir := some ⟨entries⟩ },
                           embedRuns := s.embedRuns + 1 } := by
    unfold ensure_faiss_index
    rw [hidx, hdata]
    simp [appBuildIndex, faiss_from_documents, hent]
  have hg : get_rag_chain svc s
      = Except.ok ((⟨⟨entries⟩⟩ : RagChain),
          { s with fs := { s.fs with faissIndexDir := some ⟨entries⟩ },
                   embedRuns := s.embedRuns + 1,
                   rag_chain := some ⟨⟨entries⟩⟩ }) := by
    unfold get_rag_chain
    rw [hchain, hens]
  obtain ⟨ans, hans⟩ :=
    hllm (promptTemplate (format_docs (svc.search ⟨entries⟩ q)) q)
  have hchat : chat svc q s
      = (HandlerReturn.body (JsonBody.answerObj ("Helpful Answer: V2 " ++ ans)),
         { s with fs := { s.fs with faissIndexDir := some ⟨entries⟩ },
                  embedRuns := s.embedRuns + 1,
                  rag_chain := some ⟨⟨entries⟩⟩ }) := by
    unfold chat
    rw [hg]
    simp [chainInvoke, hans]
  exact ⟨⟨"Helpful Answer: V2 " ++ ans, by rw [hchat]⟩, ⟨⟨entries⟩, by rw [hchat]⟩⟩

/-- Witness for C7: a fresh state with a reachable two-character corpus and
no index; the request succeeds and the index directory appears. -/
theorem first_query_builds_index_witness :
    freshState.rag_chain = none ∧
    freshState.fs.faissIndexDir = none ∧
    freshState.fs.dataTxt = some ['h', 'i'] ∧
    ((∃ a, (chat stubServices "q" freshState).1 = HandlerReturn.body (JsonBody.answerObj a)) ∧
      ∃ idx, (chat stubServices "q" freshState).2.fs.faissIndexDir = some idx) :=
  ⟨rfl, rfl, rfl,
    first_query_builds_index stubServices "q" freshState ['h', 'i'] rfl rfl rfl
      (fun d _ => ⟨[(d.length : Int)], rfl⟩) (fun p => ⟨p, rfl⟩)⟩

/-- C8: the pipeline reference has exactly the two states of its `Option`
type — `none` (Unloaded) and `some` (Loaded) — and the transition is
one-way: once the reference holds a chain, no sequence of requests (GET /
or POST /chat) ever changes it, clears it, or reloads another instance. -/
theorem pipeline_one_way (svc : Services) (s : ServiceState) (c : RagChain)
    (h : s.rag_chain = some c) :
    ∀ rs : List Request, (runRequests svc rs s).rag_chain = some c := by
  intro rs
  rw [runRequests_loaded_fixed svc rs s c h]
  exact h

/-- Witness for C8 on a concrete loaded state. -/
theorem pipeline_one_way_witness :
    loadedState.rag_chain = some ⟨diskIndex⟩ ∧
    ∀ rs : List Request,
      (runRequests stubServices rs loadedState).rag_chain = some ⟨diskIndex⟩ :=
  ⟨rfl, pipeline_one_way stubServices loadedState ⟨diskIndex⟩ rfl⟩

/-- C9: with the external services fixed deterministic stubs, the chat model
configured at temperature 0, and retrieval ranking fixed by the stub search,
submitting the same question twice yields identical output both times —
whatever state the first call left behind. -/
theorem chat_deterministic (svc : Services) (q : String) (s : ServiceState) :
    llm.temperature = 0 ∧
    (chat svc q ((chat svc q s).2)).1 = (chat svc q s).1 := by
  refine ⟨rfl, ?_⟩
  cases hg : get_rag_chain svc s with
  | error e =>
    have h1 : chat svc q s = (HandlerReturn.bodyWithStatus (JsonBody.errorObj e) 500, s) := by
      unfold chat
      rw [hg]
    simp [h1]
  | ok p =>
    obtain ⟨c, s1⟩ := p
    have hc1 : s1.rag_chain = some c := get_rag_chain_assigns svc s c s1 hg
    cases hi : chainInvoke svc c q with
    | error e =>
      have h1 : chat svc q s = (HandlerReturn.bodyWithStatus (JsonBody.errorObj e) 500, s1) := by
        unfold chat
        rw [hg]
        simp [hi]
      have h2 : chat svc q s1 = (HandlerReturn.bodyWithStatus (JsonBody.errorObj e) 500, s1) := by
        unfold chat
        rw [get_rag_chain_loaded svc s1 c hc1]
        simp [hi]
      simp [h1, h2]
    | ok ans =>
      have h1 : chat svc q s
          = (HandlerReturn.body (JsonBody.answerObj ("Helpful Answer: V2 " ++ ans)), s1) := by
        unfold chat
        rw [hg]
        simp [hi]
      have h2 : chat svc q s1
          = (HandlerReturn.body (JsonBody.answerObj ("Helpful Answer: V2 " ++ ans)), s1) := by
        unfold chat
        rw [get_rag_chain_loaded svc s1 c hc1]
        simp [hi]
      simp [h1, h2]

/-- C10: initialization is atomic with respect to the pipeline state —
`get_rag_chain` assigns the global reference only as its final step, after
index check or regeneration, index load and chain assembly have all
completed.  A run that raises leaves the whole state (and in particular the
null reference) unchanged, so the next request starts initialization again
from Unloaded; a run that succeeds has stored exactly the chain it
returns. -/
theorem init_atomic (svc : Services) (q : String) (s : ServiceState)
    (hnone : s.rag_chain = none) :
    (∀ e, get_rag_chain svc s = Except.error e →
      (chat svc q s).2 = s ∧ (chat svc q s).2.rag_chain = none) ∧
    (∀ c s1, get_rag_chain svc s = Except.ok (c, s1) → s1.rag_chain = some c) := by
  constructor
  · intro e he
    have h1 : chat svc q s = (HandlerReturn.bodyWithStatus (JsonBody.errorObj e) 500, s) := by
      unfold chat
      rw [he]
    rw [h1]
    exact ⟨rfl, hnone⟩
  · intro c s1 h
    exact get_rag_chain_assigns svc s c s1 h

/-- Witness for C10 on the state with no corpus and no index, where
initialization raises. -/
theorem init_atomic_witness :
    emptyState.rag_chain = none ∧
    ((∀ e, get_rag_chain stubServices emptyState = Except.error e →
        (chat stubServices "q" emptyState).2 = emptyState ∧
        (chat stubServices "q" emptyState).2.rag_chain = none) ∧
      (∀ c s1, get_rag_chain stubServices emptyState = Except.ok (c, s1) →
        s1.rag_chain = some c)) :=
  ⟨rfl, init_atomic stubServices "q" emptyState rfl⟩

end RagApp
